import Mathlib

/-!
# cpp-server: the HTTPServer class, embedded and checked

Shallow embedding of `src/src/HTTPServer.cpp` (class declared in
`src/include/HTTPServer.h`).

The program talks to the operating system only.  A run is therefore modelled
as the list of events it emits (system calls with their arguments and the
value the OS gave back, diagnostic output, `exit`), and the OS is an oracle
record `OS` holding the value each call returns.  Quantifying over every
`OS` covers every run in which each call returns.  A `send` need not return:
the source sends with flags 0 and installs no signal handler, so on a
connection the peer has reset the kernel raises SIGPIPE and the process ends
inside the call.  The record `SignalOS` adds that to the oracle, and the
definitions of the namespace `Signals` are `handleClient`, the loop and
`start` over it; where no SIGPIPE is raised they are the definitions over
`OS`.  The endless `while (true)` of `start` is unrolled by a fuel counter
that counts loop iterations; a run that is still in the loop when the fuel is
used up has outcome `running`.
-/

namespace HTTPServer

/-! ## Constants of the system headers (values as listed in the source's include comments) -/

/-- Address family for IPv4 (`sys/socket.h`, "AF_INET = 2"). -/
def AF_INET : Int := 2
/-- Stream socket type (`sys/socket.h`, "SOCK_STREAM = 1"). -/
def SOCK_STREAM : Int := 1
/-- Wildcard address (`netinet/in.h`, "INADRR_ANY = 0"). -/
def INADDR_ANY : Nat := 0
/-- Socket option level ("Value = 1" in the constructor comment). -/
def SOL_SOCKET : Int := 1
/-- Reuse-address option ("Value = 2" in the constructor comment). -/
def SO_REUSEADDR : Int := 2
/-- Failure exit status (`cstdlib`, "EXIT_FAILURE = 1"). -/
def EXIT_FAILURE : Int := 1
/-- Value of `sizeof(struct sockaddr_in)` (16 on Linux); no result below depends on it. -/
def sizeofSockaddrIn : Nat := 16
/-- Number of the broken-pipe signal (`signal.h`, 13 on Linux); no result below
depends on the value. -/
def SIGPIPE : Int := 13

/-! ## Data model -/

/-- The fields of `struct sockaddr_in` the program touches; `sin_port` is the
16-bit value as the host holds it. -/
structure SockaddrIn where
  sin_family : Int
  sin_addr : Nat
  sin_port : Nat
  deriving DecidableEq, Repr

/-- Private members of `class HTTPServer`. -/
structure Server where
  server_port : Int
  server_fd : Int
  server_address : SockaddrIn
  server_addrlen : Nat
  deriving DecidableEq, Repr

/-- What the kernel has for a `read` call: an error, or the bytes queued on
the connection (possibly none, possibly more than the caller asks for). -/
inductive ReadOutcome where
  | failed
  | received (bytes : List Nat)
  deriving DecidableEq, Repr

/-- What `accept` hands back: its return value and the peer address it fills in. -/
structure AcceptResult where
  ret : Int
  peer : SockaddrIn
  deriving DecidableEq, Repr

/-- The operating system as an oracle.  `acceptRes k`, `readRes k` and
`sendRet k` answer the calls made in loop iteration `k` of `start`. -/
structure OS where
  littleEndian : Bool
  socketRet : Int
  setsockoptRet : Int
  bindRet : Int
  listenRet : Int
  acceptRes : Nat → AcceptResult
  readRes : Nat → ReadOutcome
  sendRet : Nat → Int

/-- One line written to `cout`. -/
inductive Cout where
  | listening (addr : Nat) (port : Nat)
  | serverFd (fd : Int)
  | accepted (addr : Nat) (port : Nat)
  | bytesRead (n : Int)
  | receivedRequest (text : Option (List Nat))
  | bytesSent (n : Int)
  | helloSent
  | clientFd (fd : Int)
  deriving DecidableEq, Repr

/-- Observable events of a run.  Every system call carries its arguments and,
last, the value the OS returned.  `sigpipeInSend` is a `send` that does not
return: the kernel raises SIGPIPE in it and the process is terminated. -/
inductive Event where
  | socket (domain type protocol : Int) (ret : Int)
  | setsockopt (fd level optname optval : Int) (ret : Int)
  | bind (fd : Int) (addr : SockaddrIn) (addrlen : Nat) (ret : Int)
  | listen (fd : Int) (backlog : Int) (ret : Int)
  | accept (fd : Int) (ret : Int)
  | read (fd : Int) (count : Nat) (ret : Int)
  | send (fd : Int) (payload : List Nat) (len : Nat) (flags : Int) (ret : Int)
  | close (fd : Int)
  | perror (msg : String)
  | cout (line : Cout)
  | exit (code : Int)
  | sigpipeInSend (fd : Int) (payload : List Nat) (len : Nat) (flags : Int)
  deriving DecidableEq, Repr

/-- How a piece of the program ended: it returned a value, it terminated the
process with `exit`, the process was terminated by a signal, or (loop only) it
is still running when the fuel ran out. -/
inductive Outcome (α : Type) where
  | returned (a : α)
  | exited (code : Int)
  | running
  | killed (signal : Int)
  deriving DecidableEq, Repr

/-- A run: the events emitted, in order, and how it ended. -/
structure Run (α : Type) where
  trace : List Event
  outcome : Outcome α

/-- Sequencing: the continuation runs only after a normal return. -/
def Run.andThen {α β : Type} (r : Run α) (k : α → Run β) : Run β :=
  match r.outcome with
  | .returned a => ⟨r.trace ++ (k a).trace, (k a).outcome⟩
  | .exited c => ⟨r.trace, .exited c⟩
  | .running => ⟨r.trace, .running⟩
  | .killed sig => ⟨r.trace, .killed sig⟩

/-! ## Byte order and C strings -/

/-- Implicit conversion of an `int` argument to `uint16_t`. -/
def toUInt16 (x : Int) : Nat := (x % 65536).toNat

/-- Swap the two bytes of a 16-bit value. -/
def bswap16 (v : Nat) : Nat := (v % 256) * 256 + (v / 256) % 256

/-- Host to network short. -/
def htons (littleEndian : Bool) (v : Nat) : Nat :=
  if littleEndian then bswap16 v else v % 65536

/-- Network to host short. -/
def ntohs (littleEndian : Bool) (v : Nat) : Nat :=
  if littleEndian then bswap16 v else v % 65536

/-- The two bytes of a 16-bit host value as they lie in memory. -/
def hostBytes (littleEndian : Bool) (v : Nat) : Nat × Nat :=
  if littleEndian then (v % 256, (v / 256) % 256) else ((v / 256) % 256, v % 256)

/-- The port the kernel binds: the two bytes of `sin_port` in memory, read
most significant byte first. -/
def wirePort (littleEndian : Bool) (sin_port : Nat) : Nat :=
  (hostBytes littleEndian sin_port).1 * 256 + (hostBytes littleEndian sin_port).2

/-- C `strlen`: the number of bytes before the first NUL. -/
def strlen (mem : List Nat) : Nat := (mem.takeWhile (fun b => b != 0)).length

/-- Printing a `char` array with `cout <<`: the bytes before the first NUL, or
`none` when the array holds no NUL, in which case the scan leaves the array. -/
def cString (mem : List Nat) : Option (List Nat) :=
  if mem.any (fun b => b == 0) then some (mem.takeWhile (fun b => b != 0)) else none

/-- The call `read(fd, buffer, count)`: return value and new buffer contents. -/
def sysRead (res : ReadOutcome) (buffer : List Nat) (count : Nat) : Int × List Nat :=
  match res with
  | .failed => (-1, buffer)
  | .received bytes =>
    let got := bytes.take count
    ((got.length : Int), got ++ buffer.drop got.length)

/-! ## The program -/

/-- The string literal `hello` of `handleClient`. -/
def hello : String :=
  "HTTP/1.1 200 OK\nContent-Type: text/plain\nContent-Length: 12\n\nHello world!"

/-- The literal as it lies in memory: its bytes and the terminating NUL. -/
def helloMem : List Nat := hello.toList.map Char.toNat ++ [0]

/-- `HTTPServer::handleClient(int client_fd)`, for a `send` that returns (with
`sendRet`); `Signals.handleClient` below has the `send` that does not. -/
def handleClient (client_fd : Int) (readRes : ReadOutcome) (sendRet : Int) : Run Unit :=
  let buffer : List Nat := List.replicate 1024 0
  let rd := sysRead readRes buffer 1024
  let bytes_read := rd.1
  let buffer := rd.2
  let len := strlen helloMem
  let bytes_send := sendRet
  { trace :=
      [ .read client_fd 1024 bytes_read,
        .cout (.bytesRead bytes_read),
        .cout (.receivedRequest (cString buffer)),
        .send client_fd (helloMem.take len) len 0 bytes_send,
        .cout (.bytesSent bytes_send),
        .cout .helloSent,
        .cout (.clientFd client_fd),
        .close client_fd ],
    outcome := .returned () }

/-- `HTTPServer::HTTPServer(int server_port)`. -/
def construct (os : OS) (server_port : Int) : Run Server :=
  let server_fd := os.socketRet
  let e1 := Event.socket AF_INET SOCK_STREAM 0 server_fd
  if server_fd = 0 then
    ⟨[e1, .perror "Socket creation failed", .exit EXIT_FAILURE], .exited EXIT_FAILURE⟩
  else
    let opt : Int := 1
    let e2 := Event.setsockopt server_fd SOL_SOCKET SO_REUSEADDR opt os.setsockoptRet
    if os.setsockoptRet < 0 then
      ⟨[e1, e2, .perror "setsockopt failed", .close server_fd, .exit EXIT_FAILURE],
        .exited EXIT_FAILURE⟩
    else
      let server_address : SockaddrIn :=
        { sin_family := AF_INET,
          sin_addr := INADDR_ANY,
          sin_port := htons os.littleEndian (toUInt16 server_port) }
      let e3 := Event.bind server_fd server_address sizeofSockaddrIn os.bindRet
      if os.bindRet < 0 then
        ⟨[e1, e2, e3, .perror "Bind failed", .close server_fd, .exit EXIT_FAILURE],
          .exited EXIT_FAILURE⟩
      else
        ⟨[e1, e2, e3],
          .returned
            { server_port := server_port,
              server_fd := server_fd,
              server_address := server_address,
              server_addrlen := sizeofSockaddrIn }⟩

/-- `HTTPServer::~HTTPServer()`. -/
def destruct (s : Server) : Run Unit :=
  ⟨[.close s.server_fd], .returned ()⟩

/-- The `while (true)` loop of `start`, from iteration `k` on, for at most
`fuel` iterations. -/
def acceptLoop (s : Server) (os : OS) : Nat → Nat → Run Unit
  | 0, _ => ⟨[], .running⟩
  | fuel + 1, k =>
    let client_fd := (os.acceptRes k).ret
    let client_address := (os.acceptRes k).peer
    if client_fd < 0 then
      ⟨[.accept s.server_fd client_fd, .perror "accept failed", .close s.server_fd,
          .exit EXIT_FAILURE], .exited EXIT_FAILURE⟩
    else
      let h := handleClient client_fd (os.readRes k) (os.sendRet k)
      let rest := h.andThen (fun _ => acceptLoop s os fuel (k + 1))
      ⟨[.accept s.server_fd client_fd,
          .cout (.accepted client_address.sin_addr (ntohs os.littleEndian client_address.sin_port))]
          ++ rest.trace, rest.outcome⟩

/-- `HTTPServer::start()`, its loop run for at most `fuel` iterations. -/
def start (s : Server) (os : OS) (fuel : Nat) : Run Unit :=
  if os.listenRet < 0 then
    ⟨[.listen s.server_fd 3 os.listenRet, .perror "listen failed", .close s.server_fd,
        .exit EXIT_FAILURE], .exited EXIT_FAILURE⟩
  else
    let loop := acceptLoop s os fuel 0
    ⟨[.listen s.server_fd 3 os.listenRet,
        .cout (.listening s.server_address.sin_addr (ntohs os.littleEndian s.server_address.sin_port)),
        .cout (.serverFd s.server_fd)] ++ loop.trace, loop.outcome⟩

/-! ## The program on an OS that raises SIGPIPE -/

/-- What the kernel does with a `send`: it returns a value (the number of
bytes taken, possibly short, or -1), or, on a connection the peer has reset,
it raises SIGPIPE.  The source passes flags 0 (no `MSG_NOSIGNAL`) and never
installs a handler, so the signal terminates the process inside the call. -/
inductive SendOutcome where
  | returned (ret : Int)
  | sigpipe
  deriving DecidableEq, Repr

/-- The OS oracle with signals: `sigpipe k` says that the `send` of loop
iteration `k` raises SIGPIPE instead of returning `sendRet k`. -/
structure SignalOS extends OS where
  sigpipe : Nat → Bool

/-- What happens to the `send` of loop iteration `k`. -/
def SignalOS.sendRes (os : SignalOS) (k : Nat) : SendOutcome :=
  if os.sigpipe k then .sigpipe else .returned (os.sendRet k)

/-- `HTTPServer::handleClient(int client_fd)`. -/
def Signals.handleClient (client_fd : Int) (readRes : ReadOutcome) (sendRes : SendOutcome) :
    Run Unit :=
  let buffer : List Nat := List.replicate 1024 0
  let rd := sysRead readRes buffer 1024
  let bytes_read := rd.1
  let buffer := rd.2
  let len := strlen helloMem
  match sendRes with
  | .sigpipe =>
    { trace :=
        [ .read client_fd 1024 bytes_read,
          .cout (.bytesRead bytes_read),
          .cout (.receivedRequest (cString buffer)),
          .sigpipeInSend client_fd (helloMem.take len) len 0 ],
      outcome := .killed SIGPIPE }
  | .returned bytes_send =>
    { trace :=
        [ .read client_fd 1024 bytes_read,
          .cout (.bytesRead bytes_read),
          .cout (.receivedRequest (cString buffer)),
          .send client_fd (helloMem.take len) len 0 bytes_send,
          .cout (.bytesSent bytes_send),
          .cout .helloSent,
          .cout (.clientFd client_fd),
          .close client_fd ],
      outcome := .returned () }

/-- The `while (true)` loop of `start`, from iteration `k` on, for at most
`fuel` iterations. -/
def Signals.acceptLoop (s : Server) (os : SignalOS) : Nat → Nat → Run Unit
  | 0, _ => ⟨[], .running⟩
  | fuel + 1, k =>
    let client_fd := (os.acceptRes k).ret
    let client_address := (os.acceptRes k).peer
    if client_fd < 0 then
      ⟨[.accept s.server_fd client_fd, .perror "accept failed", .close s.server_fd,
          .exit EXIT_FAILURE], .exited EXIT_FAILURE⟩
    else
      let h := Signals.handleClient client_fd (os.readRes k) (os.sendRes k)
      let rest := h.andThen (fun _ => Signals.acceptLoop s os fuel (k + 1))
      ⟨[.accept s.server_fd client_fd,
          .cout (.accepted client_address.sin_addr (ntohs os.littleEndian client_address.sin_port))]
          ++ rest.trace, rest.outcome⟩

/-- `HTTPServer::start()`, its loop run for at most `fuel` iterations. -/
def Signals.start (s : Server) (os : SignalOS) (fuel : Nat) : Run Unit :=
  if os.listenRet < 0 then
    ⟨[.listen s.server_fd 3 os.listenRet, .perror "listen failed", .close s.server_fd,
        .exit EXIT_FAILURE], .exited EXIT_FAILURE⟩
  else
    let loop := Signals.acceptLoop s os fuel 0
    ⟨[.listen s.server_fd 3 os.listenRet,
        .cout (.listening s.server_address.sin_addr (ntohs os.littleEndian s.server_address.sin_port)),
        .cout (.serverFd s.server_fd)] ++ loop.trace, loop.outcome⟩

/-! ## Observations on traces -/

/-- Descriptor, payload, length and flags of a `send`, returning or not. -/
def Event.sendArgs : Event → Option (Int × List Nat × Nat × Int)
  | .send fd payload len flags _ => some (fd, payload, len, flags)
  | .sigpipeInSend fd payload len flags => some (fd, payload, len, flags)
  | _ => none

/-- The arguments of every `send` of a trace, in order. -/
def sends (t : List Event) : List (Int × List Nat × Nat × Int) := t.filterMap Event.sendArgs

/-- Descriptor of a `close`. -/
def Event.closedFd : Event → Option Int
  | .close fd => some fd
  | _ => none

/-- The descriptors closed by a trace, in order. -/
def closes (t : List Event) : List Int := t.filterMap Event.closedFd

/-- Descriptor a `bind` is called on. -/
def Event.boundFd : Event → Option Int
  | .bind fd _ _ _ => some fd
  | _ => none

/-- The descriptors `bind` is called on in a trace. -/
def binds (t : List Event) : List Int := t.filterMap Event.boundFd

/-- Descriptor a `listen` is called on. -/
def Event.listenedFd : Event → Option Int
  | .listen fd _ _ => some fd
  | _ => none

/-- The descriptors `listen` is called on in a trace. -/
def listens (t : List Event) : List Int := t.filterMap Event.listenedFd

/-- Descriptor an `accept` is called on. -/
def Event.acceptedOn : Event → Option Int
  | .accept fd _ => some fd
  | _ => none

/-- The descriptors `accept` is called on in a trace. -/
def acceptsOn (t : List Event) : List Int := t.filterMap Event.acceptedOn

/-- The port on the wire a `bind` asks for. -/
def Event.requestedPort (littleEndian : Bool) : Event → Option Nat
  | .bind _ addr _ _ => some (wirePort littleEndian addr.sin_port)
  | _ => none

/-- The port every `bind` of a trace asks for. -/
def requestedPorts (littleEndian : Bool) (t : List Event) : List Nat :=
  t.filterMap (Event.requestedPort littleEndian)

/-- The kernel's side of `bind` on an internet socket: a request for port 0 is
a request for a free port of the kernel's choosing (`ephemeral`); any other
port is bound as asked. -/
def kernelBoundPort (ephemeral : Nat) (requested : Nat) : Nat :=
  if requested = 0 then ephemeral else requested

/-- The port a socket is bound to by a `bind` that succeeded; a `bind` that
failed binds nothing. -/
def Event.boundPort (littleEndian : Bool) (ephemeral : Nat) : Event → Option Nat
  | .bind _ addr _ ret =>
    if ret < 0 then none
    else some (kernelBoundPort ephemeral (wirePort littleEndian addr.sin_port))
  | _ => none

/-- The ports the sockets of a trace are bound to, `ephemeral` being the port
the kernel picks when asked for port 0. -/
def boundPorts (littleEndian : Bool) (ephemeral : Nat) (t : List Event) : List Nat :=
  t.filterMap (Event.boundPort littleEndian ephemeral)

/-- The port shown by a "Server is listening on address" line. -/
def Event.reportedPort : Event → Option Nat
  | .cout (.listening _ port) => some port
  | _ => none

/-- The port shown by every "Server is listening on address" line of a trace. -/
def reportedPorts (t : List Event) : List Nat := t.filterMap Event.reportedPort

/-- The 73 bytes of the fixed response, written out. -/
def fixedResponse : List Nat :=
  [72, 84, 84, 80, 47, 49, 46, 49, 32, 50, 48, 48, 32, 79, 75, 10,
   67, 111, 110, 116, 101, 110, 116, 45, 84, 121, 112, 101, 58, 32,
   116, 101, 120, 116, 47, 112, 108, 97, 105, 110, 10,
   67, 111, 110, 116, 101, 110, 116, 45, 76, 101, 110, 103, 116, 104, 58, 32, 49, 50, 10,
   10,
   72, 101, 108, 108, 111, 32, 119, 111, 114, 108, 100, 33]

/-- The value `bytes_read` gets in `handleClient`. -/
def bytesRead (readRes : ReadOutcome) : Int :=
  (sysRead readRes (List.replicate 1024 0) 1024).1

/-- The contents of `buffer` after the read in `handleClient`. -/
def bufferAfterRead (readRes : ReadOutcome) : List Nat :=
  (sysRead readRes (List.replicate 1024 0) 1024).2

/-- All events of loop iteration `k` of `start` when its `accept` succeeds. -/
def iteration (s : Server) (os : OS) (k : Nat) : List Event :=
  [ .accept s.server_fd (os.acceptRes k).ret,
    .cout (.accepted (os.acceptRes k).peer.sin_addr
      (ntohs os.littleEndian (os.acceptRes k).peer.sin_port)),
    .read (os.acceptRes k).ret 1024 (bytesRead (os.readRes k)),
    .cout (.bytesRead (bytesRead (os.readRes k))),
    .cout (.receivedRequest (cString (bufferAfterRead (os.readRes k)))),
    .send (os.acceptRes k).ret fixedResponse 73 0 (os.sendRet k),
    .cout (.bytesSent (os.sendRet k)),
    .cout .helloSent,
    .cout (.clientFd (os.acceptRes k).ret),
    .close (os.acceptRes k).ret ]

/-- The events of `n` successive successful iterations, from iteration `k` on. -/
def iterations (s : Server) (os : OS) (k : Nat) : Nat → List Event
  | 0 => []
  | n + 1 => iteration s os k ++ iterations s os (k + 1) n

/-- The events of a failed `accept` in iteration `k`. -/
def acceptFailure (s : Server) (os : OS) (k : Nat) : List Event :=
  [ .accept s.server_fd (os.acceptRes k).ret, .perror "accept failed",
    .close s.server_fd, .exit EXIT_FAILURE ]

/-- The object a successful construction leaves behind. -/
def constructed (os : OS) (server_port : Int) : Server :=
  { server_port := server_port,
    server_fd := os.socketRet,
    server_address :=
      { sin_family := AF_INET,
        sin_addr := INADDR_ANY,
        sin_port := htons os.littleEndian (toUInt16 server_port) },
    server_addrlen := sizeofSockaddrIn }

/-- Modelled from the spec: the caller of the class (the program's entry point
is not among the sources).  The spec gives the control flow as "construct
(bind) → start (listen, then loop: accept → handle → close client)"; a whole
run is construction on `server_port` followed by `start`. -/
def serve (os : OS) (server_port : Int) (fuel : Nat) : Run Unit :=
  (construct os server_port).andThen (fun s => start s os fuel)

/-! ## Reading an HTTP response (used to state what the fixed response declares) -/

/-- Bytes of an ASCII string. -/
def asciiBytes (s : String) : List Nat := s.toList.map Char.toNat

/-- Cut a message at its first blank line (two newlines in a row): the header
block before it and everything after it. -/
def splitAtBlankLine : List Nat → Option (List Nat × List Nat)
  | [] => none
  | [_] => none
  | a :: b :: rest =>
    if a = 10 ∧ b = 10 then some ([], rest)
    else (splitAtBlankLine (b :: rest)).map (fun p => (a :: p.1, p.2))

/-- A non-empty run of ASCII digits as a number. -/
def parseDecimal : List Nat → Option Nat
  | [] => none
  | ds =>
    if ds.all (fun d => decide (48 ≤ d ∧ d ≤ 57))
    then some (ds.foldl (fun acc d => acc * 10 + (d - 48)) 0) else none

/-- The value of the first header line "name: value" of a header block. -/
def headerValue (name : String) (headerBlock : List Nat) : Option (List Nat) :=
  (headerBlock.splitOn 10).findSome? (fun line =>
    if (asciiBytes name ++ asciiBytes ": ").isPrefixOf line
    then some (line.drop (asciiBytes name ++ asciiBytes ": ").length) else none)

/-- The number a response declares in its Content-Length header. -/
def declaredContentLength (response : List Nat) : Option Nat :=
  (splitAtBlankLine response).bind (fun p => (headerValue "Content-Length" p.1).bind parseDecimal)

/-- The body of a response: everything after its first blank line. -/
def responseBody (response : List Nat) : Option (List Nat) :=
  (splitAtBlankLine response).map (fun p => p.2)

/-! ## Concrete inputs used below -/

/-- An OS on which everything succeeds and two clients connect before `accept`
fails; the first sends "GET", the second nothing. -/
def osTwoClients : OS :=
  { littleEndian := true,
    socketRet := 3,
    setsockoptRet := 0,
    bindRet := 0,
    listenRet := 0,
    acceptRes := fun k => if k < 2 then ⟨4, ⟨2, 16777343, 14640⟩⟩ else ⟨-1, ⟨0, 0, 0⟩⟩,
    readRes := fun k => if k = 0 then .received [71, 69, 84] else .received [],
    sendRet := fun _ => 73 }

/-- An OS whose `socket` call fails with -1, after which every call on the
invalid descriptor fails too. -/
def osSocketFails : OS :=
  { littleEndian := true,
    socketRet := -1,
    setsockoptRet := -1,
    bindRet := -1,
    listenRet := -1,
    acceptRes := fun _ => ⟨-1, ⟨0, 0, 0⟩⟩,
    readRes := fun _ => .failed,
    sendRet := fun _ => -1 }

/-- A request of 1025 bytes, each the letter A. -/
def longRequest : List Nat := List.replicate 1025 65


/-- As `osTwoClients`, but `setsockopt` fails. -/
def osSetsockoptFails : OS := { osTwoClients with setsockoptRet := -1 }

/-- As `osTwoClients`, but `bind` fails (the port is in use). -/
def osBindFails : OS := { osTwoClients with bindRet := -1 }

/-- As `osTwoClients`, but `socket` returns descriptor 0. -/
def osSocketZero : OS := { osTwoClients with socketRet := 0 }

/-- As `osTwoClients`, but `listen` fails. -/
def osListenFails : OS := { osTwoClients with listenRet := -1 }

/-- Every close of descriptor `fd` in the trace is directly followed by
`exit(EXIT_FAILURE)`, with which the trace ends. -/
def CloseEnds (fd : Int) : List Event → Prop
  | [] => True
  | e :: t => (e = .close fd → t = [.exit EXIT_FAILURE]) ∧ CloseEnds fd t

/-! ## Theorems -/

/-! ### Byte order -/

theorem wirePort_htons (le : Bool) (v : Nat) (h : v < 65536) :
    wirePort le (htons le v) = v := by
  cases le
  · simp only [wirePort, hostBytes, htons, Bool.false_eq_true, if_false]; omega
  · have hhi : v / 256 % 256 = v / 256 := by omega
    have h1 : (v % 256 * 256 + v / 256) % 256 = v / 256 := by omega
    have h2 : (v % 256 * 256 + v / 256) / 256 = v % 256 := by omega
    simp only [wirePort, hostBytes, htons, bswap16, if_true, hhi, h1, h2]; omega

theorem ntohs_htons (le : Bool) (v : Nat) (h : v < 65536) : ntohs le (htons le v) = v := by
  cases le
  · simp only [ntohs, htons, Bool.false_eq_true, if_false]; omega
  · have hhi : v / 256 % 256 = v / 256 := by omega
    have h1 : (v % 256 * 256 + v / 256) % 256 = v / 256 := by omega
    have h2 : (v % 256 * 256 + v / 256) / 256 = v % 256 := by omega
    simp only [ntohs, htons, bswap16, if_true, hhi, h1, h2]; omega

theorem toUInt16_lt (x : Int) : toUInt16 x < 65536 := by
  unfold toUInt16; omega

theorem toUInt16_cast (x : Int) : ((toUInt16 x : Nat) : Int) = x % 65536 := by
  unfold toUInt16; omega

/-! ### C strings and the read buffer -/

theorem strlen_helloMem : strlen helloMem = 73 := by decide

theorem helloMem_take : helloMem.take 73 = fixedResponse := by decide

theorem cString_eq_none_iff (mem : List Nat) : cString mem = none ↔ ∀ b ∈ mem, b ≠ 0 := by
  unfold cString
  simp only [List.any_eq_true, beq_iff_eq, ite_eq_right_iff, reduceCtorEq, imp_false,
    not_exists, not_and]

theorem sysRead_received_full (bytes buffer : List Nat) (count : Nat)
    (h : count ≤ bytes.length) (hb : buffer.length = count) :
    sysRead (.received bytes) buffer count = ((count : Int), bytes.take count) := by
  have hl : (bytes.take count).length = count := by simp [List.length_take, h]
  have hd : buffer.drop count = [] := List.drop_eq_nil_of_le (by omega)
  simp only [sysRead, hl, hd, List.append_nil]

theorem takeWhile_append_zero (bytes rest : List Nat) :
    (bytes ++ 0 :: rest).takeWhile (fun b => b != 0) = bytes.takeWhile (fun b => b != 0) := by
  induction bytes with
  | nil => simp
  | cons a t ih =>
    by_cases ha : a = 0
    · simp [ha]
    · simp [List.takeWhile_cons, ha, ih]

theorem sysRead_received_short (bytes : List Nat) (n : Nat) (h : bytes.length < n) :
    cString (sysRead (.received bytes) (List.replicate n 0) n).2
      = some (bytes.takeWhile (fun b => b != 0)) := by
  have hl : (bytes.take n) = bytes := List.take_of_length_le (by omega)
  obtain ⟨m, hm⟩ : ∃ m, n - bytes.length = m + 1 := ⟨n - bytes.length - 1, by omega⟩
  have hd : (List.replicate n 0).drop bytes.length = 0 :: List.replicate m 0 := by
    rw [List.drop_replicate, hm, List.replicate_succ]
  simp only [sysRead, hl, hd]
  unfold cString
  rw [takeWhile_append_zero]
  simp

theorem bufferAfterRead_longRequest : bufferAfterRead (.received longRequest) = List.replicate 1024 65 := by
  unfold bufferAfterRead
  rw [sysRead_received_full _ _ _ (by rw [longRequest, List.length_replicate]; decide)
    (List.length_replicate _ _), longRequest, List.take_replicate]
  rfl

theorem bytesRead_longRequest : bytesRead (.received longRequest) = 1024 := by
  unfold bytesRead
  rw [sysRead_received_full _ _ _ (by rw [longRequest, List.length_replicate]; decide)
    (List.length_replicate _ _)]
  rfl

/-! ### handleClient -/

theorem handleClient_trace (client_fd : Int) (readRes : ReadOutcome) (sendRet : Int) :
    (handleClient client_fd readRes sendRet).trace =
      [ .read client_fd 1024 (bytesRead readRes),
        .cout (.bytesRead (bytesRead readRes)),
        .cout (.receivedRequest (cString (bufferAfterRead readRes))),
        .send client_fd fixedResponse 73 0 sendRet,
        .cout (.bytesSent sendRet),
        .cout .helloSent,
        .cout (.clientFd client_fd),
        .close client_fd ] := by
  simp only [handleClient, strlen_helloMem, helloMem_take, bytesRead, bufferAfterRead]

theorem handleClient_outcome (client_fd : Int) (readRes : ReadOutcome) (sendRet : Int) :
    (handleClient client_fd readRes sendRet).outcome = .returned () := rfl

/-- C1: whatever the client descriptor, whatever the read delivered (bytes,
nothing, or an error) and whatever the send returns, handleClient issues
exactly one send, on the client descriptor, with flags 0, whose payload is the
fixed response and whose length is 73; the fixed response is the byte string
of the literal with bare newlines and no trailing newline; a second run with
a different read outcome sends the same. -/
theorem handleClient_sends_fixed_response (client_fd : Int) (readRes readRes2 : ReadOutcome)
    (sendRet : Int) :
    sends (handleClient client_fd readRes sendRet).trace = [(client_fd, fixedResponse, 73, 0)]
    ∧ fixedResponse =
        ("HTTP/1.1 200 OK\nContent-Type: text/plain\nContent-Length: 12\n\nHello world!".toUTF8.data.toList.map
          UInt8.toNat)
    ∧ fixedResponse.length = 73
    ∧ sends (handleClient client_fd readRes2 sendRet).trace
        = sends (handleClient client_fd readRes sendRet).trace := by
  refine ⟨?_, by decide, by decide, ?_⟩
  · rw [handleClient_trace]; rfl
  · rw [handleClient_trace, handleClient_trace]; rfl

/-- C2: in the response handleClient sends, the Content-Length header declares
12, the body (everything after the first blank line) is "Hello world!", and
that body is 12 bytes long. -/
theorem content_length_equals_body_length (client_fd : Int) (readRes : ReadOutcome)
    (sendRet : Int) :
    (sends (handleClient client_fd readRes sendRet).trace).map
        (fun p => (declaredContentLength p.2.1, responseBody p.2.1,
          (responseBody p.2.1).map List.length))
      = [(some 12, some (asciiBytes "Hello world!"), some 12)] := by
  have h : sends (handleClient client_fd readRes sendRet).trace
      = [(client_fd, fixedResponse, 73, 0)] := by
    rw [handleClient_trace]; rfl
  rw [h]
  simp only [List.map_cons, List.map_nil]
  decide

/-- C8 (the code at the failing input): a read that delivers 1024 bytes, none
of them zero, leaves no NUL in the 1024-byte buffer, so printing the buffer as
a C string finds no terminator inside it; the send and the close still follow. -/
theorem handleClient_full_buffer_unterminated :
    bytesRead (.received longRequest) = 1024
    ∧ bufferAfterRead (.received longRequest) = List.replicate 1024 65
    ∧ cString (bufferAfterRead (.received longRequest)) = none
    ∧ (handleClient 4 (.received longRequest) 73).trace =
      [ .read 4 1024 1024,
        .cout (.bytesRead 1024),
        .cout (.receivedRequest none),
        .send 4 fixedResponse 73 0 73,
        .cout (.bytesSent 73),
        .cout .helloSent,
        .cout (.clientFd 4),
        .close 4 ] := by
  have h2 : cString (bufferAfterRead (.received longRequest)) = none := by
    rw [cString_eq_none_iff, bufferAfterRead_longRequest]
    intro b hb
    rw [List.eq_of_mem_replicate hb]; decide
  refine ⟨bytesRead_longRequest, bufferAfterRead_longRequest, h2, ?_⟩
  rw [handleClient_trace, h2, bytesRead_longRequest]

/-- A read that delivers fewer than 1024 bytes leaves a NUL in the buffer: the
request text handleClient prints is the received bytes up to their first NUL,
and the read returns their number. -/
theorem handleClient_short_read_is_terminated (client_fd : Int) (bytes : List Nat)
    (sendRet : Int) (h : bytes.length < 1024) :
    (handleClient client_fd (.received bytes) sendRet).trace =
      [ .read client_fd 1024 (bytes.length : Int),
        .cout (.bytesRead (bytes.length : Int)),
        .cout (.receivedRequest (some (bytes.takeWhile (fun b => b != 0)))),
        .send client_fd fixedResponse 73 0 sendRet,
        .cout (.bytesSent sendRet),
        .cout .helloSent,
        .cout (.clientFd client_fd),
        .close client_fd ] := by
  have h1 : cString (bufferAfterRead (.received bytes))
      = some (bytes.takeWhile (fun b => b != 0)) := sysRead_received_short bytes 1024 h
  have h2 : bytesRead (.received bytes) = (bytes.length : Int) := by
    show (((bytes.take 1024).length : Nat) : Int) = _
    rw [List.take_of_length_le (by omega)]
  rw [handleClient_trace, h1, h2]

/-- Witness: the three bytes of "GET" on descriptor 4. -/
theorem handleClient_short_read_is_terminated_witness :
    [71, 69, 84].length < 1024
    ∧ (handleClient 4 (.received [71, 69, 84]) 73).trace =
      [ .read 4 1024 (([71, 69, 84] : List Nat).length : Int),
        .cout (.bytesRead (([71, 69, 84] : List Nat).length : Int)),
        .cout (.receivedRequest (some (([71, 69, 84] : List Nat).takeWhile (fun b => b != 0)))),
        .send 4 fixedResponse 73 0 73,
        .cout (.bytesSent 73),
        .cout .helloSent,
        .cout (.clientFd 4),
        .close 4 ] :=
  ⟨by decide, handleClient_short_read_is_terminated 4 [71, 69, 84] 73 (by decide)⟩

/-! ### The constructor -/

/-- C3 (the code at the failing input): when socket returns -1 the constructor
does not stop there; its next event is setsockopt on descriptor -1, and the
process ends only through the setsockopt failure path. -/
theorem construct_goes_on_after_socket_failure :
    (construct osSocketFails 8080).trace =
      [ .socket AF_INET SOCK_STREAM 0 (-1),
        .setsockopt (-1) SOL_SOCKET SO_REUSEADDR 1 (-1),
        .perror "setsockopt failed",
        .close (-1),
        .exit EXIT_FAILURE ] := by
  decide

/-- A socket call that returns descriptor 0 is taken for a failure: the
constructor prints "Socket creation failed" and exits with EXIT_FAILURE; it
issues no other call, so descriptor 0 is not closed. -/
theorem construct_takes_descriptor_zero_for_failure (os : OS) (server_port : Int)
    (h : os.socketRet = 0) :
    (construct os server_port).trace =
      [ .socket AF_INET SOCK_STREAM 0 0, .perror "Socket creation failed",
        .exit EXIT_FAILURE ]
    ∧ (construct os server_port).outcome = .exited EXIT_FAILURE
    ∧ closes (construct os server_port).trace = [] := by
  simp [construct, h, closes, Event.closedFd]

/-- Witness: the OS of `osTwoClients`, but with socket returning 0. -/
theorem construct_takes_descriptor_zero_for_failure_witness :
    osSocketZero.socketRet = 0
    ∧ (construct osSocketZero 8080).trace =
      [ .socket AF_INET SOCK_STREAM 0 0, .perror "Socket creation failed",
        .exit EXIT_FAILURE ]
    ∧ (construct osSocketZero 8080).outcome = .exited EXIT_FAILURE
    ∧ closes (construct osSocketZero 8080).trace = [] :=
  ⟨by decide, construct_takes_descriptor_zero_for_failure osSocketZero 8080 (by decide)⟩

/-! ### The accept loop -/

theorem acceptLoop_fail (s : Server) (os : OS) (fuel k : Nat)
    (h : (os.acceptRes k).ret < 0) :
    acceptLoop s os (fuel + 1) k = ⟨acceptFailure s os k, .exited EXIT_FAILURE⟩ := by
  simp [acceptLoop, h, acceptFailure]

theorem acceptLoop_ok (s : Server) (os : OS) (fuel k : Nat)
    (h : ¬ (os.acceptRes k).ret < 0) :
    acceptLoop s os (fuel + 1) k =
      ⟨iteration s os k ++ (acceptLoop s os fuel (k + 1)).trace,
        (acceptLoop s os fuel (k + 1)).outcome⟩ := by
  simp only [acceptLoop, h, if_false, Run.andThen, handleClient_outcome, handleClient_trace,
    iteration]
  rfl

theorem acceptLoop_prefix (s : Server) (os : OS) (m : Nat) :
    ∀ (n k : Nat), (∀ j, j < n → ¬ (os.acceptRes (k + j)).ret < 0) →
      acceptLoop s os (n + m) k =
        ⟨iterations s os k n ++ (acceptLoop s os m (k + n)).trace,
          (acceptLoop s os m (k + n)).outcome⟩ := by
  intro n
  induction n with
  | zero => intro k _; simp [iterations]
  | succ n ih =>
    intro k h
    have h0 : ¬ (os.acceptRes k).ret < 0 := by simpa using h 0 (Nat.succ_pos n)
    have hrest : ∀ j, j < n → ¬ (os.acceptRes (k + 1 + j)).ret < 0 := by
      intro j hj
      have := h (j + 1) (Nat.succ_lt_succ hj)
      rwa [show k + (j + 1) = k + 1 + j by omega] at this
    rw [show n + 1 + m = (n + m) + 1 by omega, acceptLoop_ok s os _ k h0, ih (k + 1) hrest]
    simp only [iterations, List.append_assoc]
    rw [show k + 1 + n = k + (n + 1) by omega]

theorem acceptLoop_outcome_ne_returned (s : Server) (os : OS) :
    ∀ (fuel k : Nat), (acceptLoop s os fuel k).outcome ≠ .returned () := by
  intro fuel
  induction fuel with
  | zero => intro k; simp [acceptLoop]
  | succ fuel ih =>
    intro k
    by_cases h : (os.acceptRes k).ret < 0
    · rw [acceptLoop_fail s os fuel k h]; simp
    · rw [acceptLoop_ok s os fuel k h]; exact ih (k + 1)

theorem acceptLoop_exited (s : Server) (os : OS) :
    ∀ (fuel k : Nat) (code : Int), (acceptLoop s os fuel k).outcome = .exited code →
      code = EXIT_FAILURE ∧ ∃ n, n < fuel ∧ (os.acceptRes (k + n)).ret < 0
        ∧ ∀ j, j < n → ¬ (os.acceptRes (k + j)).ret < 0 := by
  intro fuel
  induction fuel with
  | zero => intro k code h; simp [acceptLoop] at h
  | succ fuel ih =>
    intro k code hc
    by_cases h : (os.acceptRes k).ret < 0
    · rw [acceptLoop_fail s os fuel k h] at hc
      simp only [Outcome.exited.injEq] at hc
      exact ⟨hc.symm, 0, Nat.succ_pos _, by simpa using h, by intro j hj; omega⟩
    · rw [acceptLoop_ok s os fuel k h] at hc
      obtain ⟨h1, n, hn, hfail, hok⟩ := ih (k + 1) code hc
      refine ⟨h1, n + 1, by omega, ?_, ?_⟩
      · rwa [show k + (n + 1) = k + 1 + n by omega]
      · intro j hj
        cases j with
        | zero => simpa using h
        | succ j =>
          have := hok j (by omega)
          rwa [show k + (j + 1) = k + 1 + j by omega]

theorem acceptLoop_running (s : Server) (os : OS) (fuel k : Nat)
    (h : ∀ j, j < fuel → ¬ (os.acceptRes (k + j)).ret < 0) :
    acceptLoop s os fuel k = ⟨iterations s os k fuel, .running⟩ := by
  have := acceptLoop_prefix s os 0 fuel k h
  simpa [acceptLoop] using this

/-! ### start -/

theorem start_listen_fail (s : Server) (os : OS) (fuel : Nat) (h : os.listenRet < 0) :
    start s os fuel =
      ⟨[.listen s.server_fd 3 os.listenRet, .perror "listen failed", .close s.server_fd,
          .exit EXIT_FAILURE], .exited EXIT_FAILURE⟩ := by
  simp [start, h]

theorem start_listen_ok (s : Server) (os : OS) (fuel : Nat) (h : ¬ os.listenRet < 0) :
    start s os fuel =
      ⟨[.listen s.server_fd 3 os.listenRet,
          .cout (.listening s.server_address.sin_addr
            (ntohs os.littleEndian s.server_address.sin_port)),
          .cout (.serverFd s.server_fd)] ++ (acceptLoop s os fuel 0).trace,
        (acceptLoop s os fuel 0).outcome⟩ := by
  simp [start, h]

theorem construct_socket_zero (os : OS) (server_port : Int) (h : os.socketRet = 0) :
    construct os server_port =
      ⟨[.socket AF_INET SOCK_STREAM 0 os.socketRet, .perror "Socket creation failed",
          .exit EXIT_FAILURE], .exited EXIT_FAILURE⟩ := by
  simp [construct, h]

theorem construct_setsockopt_fail (os : OS) (server_port : Int) (h : os.socketRet ≠ 0)
    (ho : os.setsockoptRet < 0) :
    construct os server_port =
      ⟨[.socket AF_INET SOCK_STREAM 0 os.socketRet,
          .setsockopt os.socketRet SOL_SOCKET SO_REUSEADDR 1 os.setsockoptRet,
          .perror "setsockopt failed", .close os.socketRet, .exit EXIT_FAILURE],
        .exited EXIT_FAILURE⟩ := by
  simp [construct, h, ho]

theorem construct_bind_fail (os : OS) (server_port : Int) (h : os.socketRet ≠ 0)
    (ho : ¬ os.setsockoptRet < 0) (hb : os.bindRet < 0) :
    construct os server_port =
      ⟨[.socket AF_INET SOCK_STREAM 0 os.socketRet,
          .setsockopt os.socketRet SOL_SOCKET SO_REUSEADDR 1 os.setsockoptRet,
          .bind os.socketRet (constructed os server_port).server_address sizeofSockaddrIn
            os.bindRet,
          .perror "Bind failed", .close os.socketRet, .exit EXIT_FAILURE],
        .exited EXIT_FAILURE⟩ := by
  simp [construct, h, ho, hb, constructed]

theorem construct_ok (os : OS) (server_port : Int) (h : os.socketRet ≠ 0)
    (ho : ¬ os.setsockoptRet < 0) (hb : ¬ os.bindRet < 0) :
    construct os server_port =
      ⟨[.socket AF_INET SOCK_STREAM 0 os.socketRet,
          .setsockopt os.socketRet SOL_SOCKET SO_REUSEADDR 1 os.setsockoptRet,
          .bind os.socketRet (constructed os server_port).server_address sizeofSockaddrIn
            os.bindRet],
        .returned (constructed os server_port)⟩ := by
  simp [construct, h, ho, hb, constructed]

theorem serve_of_exited (os : OS) (server_port : Int) (fuel : Nat) (t : List Event)
    (code : Int) (h : construct os server_port = ⟨t, .exited code⟩) :
    serve os server_port fuel = ⟨t, .exited code⟩ := by
  simp [serve, Run.andThen, h]

theorem serve_ok (os : OS) (server_port : Int) (fuel : Nat) (h : os.socketRet ≠ 0)
    (ho : ¬ os.setsockoptRet < 0) (hb : ¬ os.bindRet < 0) :
    serve os server_port fuel =
      ⟨[.socket AF_INET SOCK_STREAM 0 os.socketRet,
          .setsockopt os.socketRet SOL_SOCKET SO_REUSEADDR 1 os.setsockoptRet,
          .bind os.socketRet (constructed os server_port).server_address sizeofSockaddrIn
            os.bindRet] ++ (start (constructed os server_port) os fuel).trace,
        (start (constructed os server_port) os fuel).outcome⟩ := by
  simp [serve, Run.andThen, construct_ok os server_port h ho hb]

/-- C4: every failure after the listening socket is open is fatal and releases
the socket.  (1) A failed setsockopt and (2) a failed bind: the constructor
prints the error, closes the listening descriptor and exits with
EXIT_FAILURE; nothing follows, so a run of the server with a failed bind has
no listen and no accept.  (3) A failed listen: start does the same.  (4) A
failed accept after n handled connections: the trace of start ends with that
accept, the error message, the close of the listening descriptor and the
exit with EXIT_FAILURE. -/
theorem failure_closes_listening_socket_and_exits (os : OS) (server_port : Int) (s : Server)
    (fuel : Nat) :
    (os.socketRet ≠ 0 → os.setsockoptRet < 0 →
      (construct os server_port).trace =
        [ .socket AF_INET SOCK_STREAM 0 os.socketRet,
          .setsockopt os.socketRet SOL_SOCKET SO_REUSEADDR 1 os.setsockoptRet,
          .perror "setsockopt failed", .close os.socketRet, .exit EXIT_FAILURE ]
      ∧ (construct os server_port).outcome = .exited EXIT_FAILURE
      ∧ serve os server_port fuel = ⟨(construct os server_port).trace, .exited EXIT_FAILURE⟩)
    ∧ (os.socketRet ≠ 0 → ¬ os.setsockoptRet < 0 → os.bindRet < 0 →
      (construct os server_port).trace =
        [ .socket AF_INET SOCK_STREAM 0 os.socketRet,
          .setsockopt os.socketRet SOL_SOCKET SO_REUSEADDR 1 os.setsockoptRet,
          .bind os.socketRet (constructed os server_port).server_address sizeofSockaddrIn
            os.bindRet,
          .perror "Bind failed", .close os.socketRet, .exit EXIT_FAILURE ]
      ∧ (construct os server_port).outcome = .exited EXIT_FAILURE
      ∧ serve os server_port fuel = ⟨(construct os server_port).trace, .exited EXIT_FAILURE⟩
      ∧ listens (serve os server_port fuel).trace = []
      ∧ acceptsOn (serve os server_port fuel).trace = [])
    ∧ (os.listenRet < 0 →
      (start s os fuel).trace =
        [ .listen s.server_fd 3 os.listenRet, .perror "listen failed", .close s.server_fd,
          .exit EXIT_FAILURE ]
      ∧ (start s os fuel).outcome = .exited EXIT_FAILURE)
    ∧ (∀ n, ¬ os.listenRet < 0 → (∀ k, k < n → ¬ (os.acceptRes k).ret < 0) →
        (os.acceptRes n).ret < 0 → n < fuel →
      (start s os fuel).trace =
        [ .listen s.server_fd 3 os.listenRet,
          .cout (.listening s.server_address.sin_addr
            (ntohs os.littleEndian s.server_address.sin_port)),
          .cout (.serverFd s.server_fd) ]
        ++ iterations s os 0 n
        ++ [ .accept s.server_fd (os.acceptRes n).ret, .perror "accept failed",
             .close s.server_fd, .exit EXIT_FAILURE ]
      ∧ (start s os fuel).outcome = .exited EXIT_FAILURE) := by
  refine ⟨?_, ?_, ?_, ?_⟩
  · intro h ho
    have hc := construct_setsockopt_fail os server_port h ho
    refine ⟨by rw [hc], by rw [hc], ?_⟩
    rw [serve_of_exited os server_port fuel _ _ hc, hc]
  · intro h ho hb
    have hc := construct_bind_fail os server_port h ho hb
    have hs := serve_of_exited os server_port fuel _ _ hc
    refine ⟨by rw [hc], by rw [hc], by rw [hs, hc], by rw [hs]; rfl, by rw [hs]; rfl⟩
  · intro h
    rw [start_listen_fail s os fuel h]
    exact ⟨rfl, rfl⟩
  · intro n hl hacc hn hfuel
    obtain ⟨m, rfl⟩ : ∃ m, fuel = n + (m + 1) := ⟨fuel - n - 1, by omega⟩
    have hp := acceptLoop_prefix s os (m + 1) n 0 (by simpa using hacc)
    rw [start_listen_ok s os _ hl, hp]
    simp only [Nat.zero_add]
    rw [acceptLoop_fail s os m n hn]
    simp [acceptFailure]

/-- Witness for C4: a failed setsockopt, a failed bind (port in use), a failed
listen, and an accept that fails after two handled connections. -/
theorem failure_closes_listening_socket_and_exits_witness :
    ((construct osSetsockoptFails 8080).trace =
        [ .socket 2 1 0 3, .setsockopt 3 1 2 1 (-1), .perror "setsockopt failed", .close 3,
          .exit 1 ])
    ∧ ((construct osBindFails 8080).trace =
        [ .socket 2 1 0 3, .setsockopt 3 1 2 1 0, .bind 3 ⟨2, 0, 36895⟩ 16 (-1),
          .perror "Bind failed", .close 3, .exit 1 ]
      ∧ acceptsOn (serve osBindFails 8080 5).trace = [])
    ∧ ((start (constructed osTwoClients 8080) osListenFails 5).trace =
        [ .listen 3 3 (-1), .perror "listen failed", .close 3, .exit 1 ])
    ∧ ((start (constructed osTwoClients 8080) osTwoClients 5).trace =
        [ .listen 3 3 0, .cout (.listening 0 8080), .cout (.serverFd 3) ]
        ++ iterations (constructed osTwoClients 8080) osTwoClients 0 2
        ++ [ .accept 3 (-1), .perror "accept failed", .close 3, .exit 1 ]) :=
  ⟨((failure_closes_listening_socket_and_exits osSetsockoptFails 8080
        (constructed osTwoClients 8080) 5).1 (by decide) (by decide)).1,
    ⟨((failure_closes_listening_socket_and_exits osBindFails 8080
        (constructed osTwoClients 8080) 5).2.1 (by decide) (by decide) (by decide)).1,
      ((failure_closes_listening_socket_and_exits osBindFails 8080
        (constructed osTwoClients 8080) 5).2.1 (by decide) (by decide) (by decide)).2.2.2.2⟩,
    ((failure_closes_listening_socket_and_exits osListenFails 8080
        (constructed osTwoClients 8080) 5).2.2.1 (by decide)).1,
    ((failure_closes_listening_socket_and_exits osTwoClients 8080
        (constructed osTwoClients 8080) 5).2.2.2 2 (by decide) (by decide) (by decide)
        (by decide)).1⟩
/-! ### The listening descriptor over a whole run -/

theorem closeEnds_drop (fd : Int) :
    ∀ (t : List Event), CloseEnds fd t →
      ∀ i, t[i]? = some (.close fd) → t.drop (i + 1) = [.exit EXIT_FAILURE] := by
  intro t
  induction t with
  | nil => intro _ i hi; simp at hi
  | cons e t ih =>
    intro h i hi
    cases i with
    | zero =>
      simp only [List.getElem?_cons_zero, Option.some.injEq] at hi
      simpa using h.1 hi
    | succ i =>
      simp only [List.getElem?_cons_succ] at hi
      simpa using ih h.2 i hi

theorem closeEnds_append (fd : Int) :
    ∀ (a b : List Event), (∀ e, e ∈ a → e ≠ .close fd) → CloseEnds fd b →
      CloseEnds fd (a ++ b) := by
  intro a
  induction a with
  | nil => intro b _ hb; simpa using hb
  | cons e a ih =>
    intro b ha hb
    refine ⟨fun he => absurd he (ha e (List.mem_cons_self _ _)), ?_⟩
    exact ih b (fun x hx => ha x (List.mem_cons_of_mem _ hx)) hb

theorem closeEnds_acceptLoop (s : Server) (os : OS)
    (hfresh : ∀ k, (os.acceptRes k).ret ≠ s.server_fd) :
    ∀ (fuel k : Nat), CloseEnds s.server_fd (acceptLoop s os fuel k).trace := by
  intro fuel
  induction fuel with
  | zero => intro k; simp [acceptLoop, CloseEnds]
  | succ fuel ih =>
    intro k
    by_cases h : (os.acceptRes k).ret < 0
    · rw [acceptLoop_fail s os fuel k h]
      simp [acceptFailure, CloseEnds]
    · rw [acceptLoop_ok s os fuel k h]
      refine closeEnds_append _ _ _ ?_ (ih (k + 1))
      intro e he
      simp only [iteration, List.mem_cons, List.mem_singleton, List.not_mem_nil, or_false] at he
      rcases he with rfl | rfl | rfl | rfl | rfl | rfl | rfl | rfl | rfl | rfl <;>
        simp [hfresh k]

theorem closeEnds_start (s : Server) (os : OS) (fuel : Nat)
    (hfresh : ∀ k, (os.acceptRes k).ret ≠ s.server_fd) :
    CloseEnds s.server_fd (start s os fuel).trace := by
  by_cases h : os.listenRet < 0
  · rw [start_listen_fail s os fuel h]
    simp [CloseEnds]
  · rw [start_listen_ok s os fuel h]
    exact closeEnds_append _ _ _ (by simp) (closeEnds_acceptLoop s os hfresh fuel 0)

theorem closeEnds_serve (os : OS) (server_port : Int) (fuel : Nat)
    (hfresh : ∀ k, (os.acceptRes k).ret ≠ os.socketRet) :
    CloseEnds os.socketRet (serve os server_port fuel).trace := by
  by_cases h : os.socketRet = 0
  · rw [serve_of_exited os server_port fuel _ _ (construct_socket_zero os server_port h)]
    simp [CloseEnds]
  · by_cases ho : os.setsockoptRet < 0
    · rw [serve_of_exited os server_port fuel _ _ (construct_setsockopt_fail os server_port h ho)]
      simp [CloseEnds]
    · by_cases hb : os.bindRet < 0
      · rw [serve_of_exited os server_port fuel _ _
          (construct_bind_fail os server_port h ho hb)]
        simp [CloseEnds]
      · rw [serve_ok os server_port fuel h ho hb]
        exact closeEnds_append _ _ _ (by simp)
          (closeEnds_start (constructed os server_port) os fuel hfresh)

theorem observations_acceptLoop (s : Server) (os : OS) :
    ∀ (fuel k : Nat), binds (acceptLoop s os fuel k).trace = []
      ∧ listens (acceptLoop s os fuel k).trace = []
      ∧ reportedPorts (acceptLoop s os fuel k).trace = []
      ∧ ∀ fd, fd ∈ acceptsOn (acceptLoop s os fuel k).trace → fd = s.server_fd := by
  intro fuel
  induction fuel with
  | zero => intro k; simp [acceptLoop, binds, listens, reportedPorts, acceptsOn]
  | succ fuel ih =>
    intro k
    by_cases h : (os.acceptRes k).ret < 0
    · rw [acceptLoop_fail s os fuel k h]
      simp [acceptFailure, binds, listens, reportedPorts, acceptsOn, Event.boundFd,
        Event.listenedFd, Event.reportedPort, Event.acceptedOn]
    · rw [acceptLoop_ok s os fuel k h]
      obtain ⟨h1, h2, h3, h4⟩ := ih (k + 1)
      simp only [binds, listens, reportedPorts, acceptsOn] at h1 h2 h3 h4 ⊢
      simp only [List.filterMap_append, h1, h2, h3]
      refine ⟨rfl, rfl, rfl, ?_⟩
      intro fd hfd
      rcases List.mem_append.1 hfd with hfd | hfd
      · simpa [iteration, Event.acceptedOn] using hfd
      · exact h4 fd hfd

theorem observations_start (s : Server) (os : OS) (fuel : Nat) :
    (start s os fuel).trace.head? = some (.listen s.server_fd 3 os.listenRet)
    ∧ listens (start s os fuel).trace = [s.server_fd]
    ∧ binds (start s os fuel).trace = []
    ∧ ∀ fd, fd ∈ acceptsOn (start s os fuel).trace → fd = s.server_fd := by
  by_cases h : os.listenRet < 0
  · rw [start_listen_fail s os fuel h]
    simp [binds, listens, acceptsOn, Event.boundFd, Event.listenedFd, Event.acceptedOn]
  · rw [start_listen_ok s os fuel h]
    obtain ⟨h1, h2, _, h4⟩ := observations_acceptLoop s os fuel 0
    simp only [binds, listens, acceptsOn] at h1 h2 h4 ⊢
    simp only [List.filterMap_append, h1, h2]
    refine ⟨rfl, rfl, rfl, ?_⟩
    intro fd hfd
    rcases List.mem_append.1 hfd with hfd | hfd
    · simp [Event.acceptedOn] at hfd
    · exact h4 fd hfd

/-- C7: one listening descriptor for the whole life of a server.  Assume the
OS never hands out, as a client descriptor, the descriptor of the listening
socket.  Then: the constructor neither listens nor accepts and calls bind at
most once, on the descriptor socket returned; start calls listen first and
exactly once, never bind, and every accept of start is on the server's
descriptor; in a whole run (construction, then start) every accept is on the
descriptor socket returned, a run with an accept called bind exactly once and
listen exactly once on it, every close of that descriptor is directly
followed by exit(EXIT_FAILURE) ending the trace, and hence precedes no
accept; the only other close of it is the destructor's. -/
theorem listening_socket_outlives_every_accept (os : OS) (server_port : Int) (fuel : Nat)
    (hfresh : ∀ k, (os.acceptRes k).ret ≠ os.socketRet) :
    listens (construct os server_port).trace = []
    ∧ acceptsOn (construct os server_port).trace = []
    ∧ (binds (construct os server_port).trace = []
        ∨ binds (construct os server_port).trace = [os.socketRet])
    ∧ (∀ s : Server,
        (start s os fuel).trace.head? = some (.listen s.server_fd 3 os.listenRet)
        ∧ listens (start s os fuel).trace = [s.server_fd]
        ∧ binds (start s os fuel).trace = []
        ∧ ∀ fd, fd ∈ acceptsOn (start s os fuel).trace → fd = s.server_fd)
    ∧ (∀ fd, fd ∈ acceptsOn (serve os server_port fuel).trace → fd = os.socketRet)
    ∧ (acceptsOn (serve os server_port fuel).trace ≠ [] →
        binds (serve os server_port fuel).trace = [os.socketRet]
        ∧ listens (serve os server_port fuel).trace = [os.socketRet])
    ∧ (∀ i : Nat, (serve os server_port fuel).trace[i]? = some (Event.close os.socketRet) →
        (serve os server_port fuel).trace.drop (i + 1) = [Event.exit EXIT_FAILURE])
    ∧ (∀ (i j : Nat) (lfd r : Int),
        (serve os server_port fuel).trace[i]? = some (Event.close os.socketRet) →
        (serve os server_port fuel).trace[j]? = some (Event.accept lfd r) → j < i)
    ∧ (∀ s : Server, (destruct s).trace = [.close s.server_fd]) := by
  have hdrop := closeEnds_drop _ _ (closeEnds_serve os server_port fuel hfresh)
  have hctor : listens (construct os server_port).trace = []
      ∧ acceptsOn (construct os server_port).trace = []
      ∧ (binds (construct os server_port).trace = []
          ∨ binds (construct os server_port).trace = [os.socketRet]) := by
    by_cases h : os.socketRet = 0
    · rw [construct_socket_zero os server_port h]
      exact ⟨rfl, rfl, Or.inl rfl⟩
    · by_cases ho : os.setsockoptRet < 0
      · rw [construct_setsockopt_fail os server_port h ho]
        exact ⟨rfl, rfl, Or.inl rfl⟩
      · by_cases hb : os.bindRet < 0
        · rw [construct_bind_fail os server_port h ho hb]
          exact ⟨rfl, rfl, Or.inr rfl⟩
        · rw [construct_ok os server_port h ho hb]
          exact ⟨rfl, rfl, Or.inr rfl⟩
  have hserve : (∀ fd, fd ∈ acceptsOn (serve os server_port fuel).trace → fd = os.socketRet)
      ∧ (acceptsOn (serve os server_port fuel).trace ≠ [] →
          binds (serve os server_port fuel).trace = [os.socketRet]
          ∧ listens (serve os server_port fuel).trace = [os.socketRet]) := by
    by_cases h : os.socketRet = 0
    · rw [serve_of_exited os server_port fuel _ _ (construct_socket_zero os server_port h)]
      simp [acceptsOn, Event.acceptedOn]
    · by_cases ho : os.setsockoptRet < 0
      · rw [serve_of_exited os server_port fuel _ _
          (construct_setsockopt_fail os server_port h ho)]
        simp [acceptsOn, Event.acceptedOn]
      · by_cases hb : os.bindRet < 0
        · rw [serve_of_exited os server_port fuel _ _
            (construct_bind_fail os server_port h ho hb)]
          simp [acceptsOn, Event.acceptedOn]
        · rw [serve_ok os server_port fuel h ho hb]
          obtain ⟨_, h2, h3, h4⟩ := observations_start (constructed os server_port) os fuel
          simp only [binds, listens, acceptsOn] at h2 h3 h4 ⊢
          simp only [List.filterMap_append, h2, h3]
          refine ⟨?_, fun _ => ⟨rfl, rfl⟩⟩
          intro fd hfd
          rcases List.mem_append.1 hfd with hfd | hfd
          · simp [Event.acceptedOn] at hfd
          · exact h4 fd hfd
  refine ⟨hctor.1, hctor.2.1, hctor.2.2, fun s => observations_start s os fuel, hserve.1,
    hserve.2, hdrop, ?_, fun s => rfl⟩
  intro i j lfd r hi hj
  by_contra hlt
  have hd := hdrop i hi
  rcases Nat.eq_or_lt_of_le (Nat.le_of_not_lt hlt) with hij | hij
  · subst hij
    rw [hi] at hj
    simp at hj
  · obtain ⟨m, rfl⟩ : ∃ m, j = i + 1 + m := ⟨j - (i + 1), by omega⟩
    have hget : ((serve os server_port fuel).trace.drop (i + 1))[m]? = some (.accept lfd r) := by
      rw [List.getElem?_drop]; exact hj
    rw [hd] at hget
    cases m with
    | zero => simp at hget
    | succ m => simp at hget

/-- Witness for C7: listening descriptor 3, two clients accepted on descriptor
4, then a failed accept. -/
theorem listening_socket_outlives_every_accept_witness :
    (∀ k, (osTwoClients.acceptRes k).ret ≠ osTwoClients.socketRet)
    ∧ acceptsOn (serve osTwoClients 8080 5).trace = [3, 3, 3]
    ∧ binds (serve osTwoClients 8080 5).trace = [3]
    ∧ listens (serve osTwoClients 8080 5).trace = [3]
    ∧ (serve osTwoClients 8080 5).trace[28]? = some (.close 3)
    ∧ (serve osTwoClients 8080 5).trace.drop (28 + 1) = [.exit EXIT_FAILURE] := by
  have hfresh : ∀ k, (osTwoClients.acceptRes k).ret ≠ osTwoClients.socketRet := by
    intro k
    simp only [osTwoClients]
    split <;> decide
  have h := listening_socket_outlives_every_accept osTwoClients 8080 5 hfresh
  have hacc : acceptsOn (serve osTwoClients 8080 5).trace = [3, 3, 3] := by decide
  exact ⟨hfresh, hacc, (h.2.2.2.2.2.1 (by rw [hacc]; simp)).1,
    (h.2.2.2.2.2.1 (by rw [hacc]; simp)).2, by decide,
    h.2.2.2.2.2.2.1 28 (by decide)⟩

/-! ### handleClient, the loop and start when a send may raise SIGPIPE -/

theorem sig_handleClient_returned (client_fd : Int) (readRes : ReadOutcome) (sendRet : Int) :
    Signals.handleClient client_fd readRes (.returned sendRet)
      = handleClient client_fd readRes sendRet := rfl

theorem sig_sendRes_returned (os : SignalOS) (k : Nat) (h : os.sigpipe k = false) :
    os.sendRes k = .returned (os.sendRet k) := by
  simp [SignalOS.sendRes, h]

theorem sig_acceptLoop_fail (s : Server) (os : SignalOS) (fuel k : Nat)
    (h : (os.acceptRes k).ret < 0) :
    Signals.acceptLoop s os (fuel + 1) k
      = ⟨acceptFailure s os.toOS k, .exited EXIT_FAILURE⟩ := by
  simp [Signals.acceptLoop, h, acceptFailure]

theorem sig_acceptLoop_ok (s : Server) (os : SignalOS) (fuel k : Nat)
    (h : ¬ (os.acceptRes k).ret < 0) (hs : os.sigpipe k = false) :
    Signals.acceptLoop s os (fuel + 1) k =
      ⟨iteration s os.toOS k ++ (Signals.acceptLoop s os fuel (k + 1)).trace,
        (Signals.acceptLoop s os fuel (k + 1)).outcome⟩ := by
  simp only [Signals.acceptLoop, h, if_false, sig_sendRes_returned os k hs,
    sig_handleClient_returned, Run.andThen, handleClient_outcome, handleClient_trace, iteration]
  rfl

theorem sig_acceptLoop_no_signal (s : Server) (os : SignalOS)
    (h : ∀ k, os.sigpipe k = false) :
    ∀ (fuel k : Nat), Signals.acceptLoop s os fuel k = acceptLoop s os.toOS fuel k := by
  intro fuel
  induction fuel with
  | zero => intro k; rfl
  | succ fuel ih =>
    intro k
    by_cases ha : (os.acceptRes k).ret < 0
    · rw [sig_acceptLoop_fail s os fuel k ha, acceptLoop_fail s os.toOS fuel k ha]
    · rw [sig_acceptLoop_ok s os fuel k ha (h k), acceptLoop_ok s os.toOS fuel k ha, ih (k + 1)]

theorem sig_start_listen_fail (s : Server) (os : SignalOS) (fuel : Nat)
    (h : os.listenRet < 0) :
    Signals.start s os fuel =
      ⟨[.listen s.server_fd 3 os.listenRet, .perror "listen failed", .close s.server_fd,
          .exit EXIT_FAILURE], .exited EXIT_FAILURE⟩ := by
  simp [Signals.start, h]

theorem sig_start_listen_ok (s : Server) (os : SignalOS) (fuel : Nat)
    (h : ¬ os.listenRet < 0) :
    Signals.start s os fuel =
      ⟨[.listen s.server_fd 3 os.listenRet,
          .cout (.listening s.server_address.sin_addr
            (ntohs os.littleEndian s.server_address.sin_port)),
          .cout (.serverFd s.server_fd)] ++ (Signals.acceptLoop s os fuel 0).trace,
        (Signals.acceptLoop s os fuel 0).outcome⟩ := by
  simp [Signals.start, h]

/-- Where no send raises SIGPIPE, start over the OS with signals is start over
the plain OS. -/
theorem sig_start_no_signal (s : Server) (os : SignalOS) (fuel : Nat)
    (h : ∀ k, os.sigpipe k = false) :
    Signals.start s os fuel = start s os.toOS fuel := by
  by_cases hl : os.listenRet < 0
  · rw [sig_start_listen_fail s os fuel hl, start_listen_fail s os.toOS fuel hl]
  · rw [sig_start_listen_ok s os fuel hl, start_listen_ok s os.toOS fuel hl,
      sig_acceptLoop_no_signal s os h]

theorem wirePort_constructed (os : OS) (server_port : Int) :
    ((wirePort os.littleEndian (constructed os server_port).server_address.sin_port : Nat) : Int)
      = server_port % 65536 := by
  show ((wirePort os.littleEndian (htons os.littleEndian (toUInt16 server_port)) : Nat) : Int) = _
  rw [wirePort_htons _ _ (toUInt16_lt server_port), toUInt16_cast]

theorem ntohs_constructed (os : OS) (server_port : Int) :
    ((ntohs os.littleEndian (constructed os server_port).server_address.sin_port : Nat) : Int)
      = server_port % 65536 := by
  show ((ntohs os.littleEndian (htons os.littleEndian (toUInt16 server_port)) : Nat) : Int) = _
  rw [ntohs_htons _ _ (toUInt16_lt server_port), toUInt16_cast]

/-- C10 (counterexample): server_port = 0 lies in 0..65535, the constructor
asks bind for port 0 and start reports port 0, but the socket is bound to the
port the kernel picks (here 36129), not to server_port. -/
theorem port_zero_is_bound_to_ephemeral_port :
    requestedPorts osTwoClients.littleEndian (construct osTwoClients 0).trace = [0]
    ∧ boundPorts osTwoClients.littleEndian 36129 (construct osTwoClients 0).trace = [36129]
    ∧ reportedPorts (serve osTwoClients 0 5).trace = [0]
    ∧ ¬ ((boundPorts osTwoClients.littleEndian 36129 (construct osTwoClients 0).trace).map
          Int.ofNat = [(0 : Int)]) := by
  decide

/-- C10 (amended): the port the constructor asks bind for is the int argument
reduced modulo 2^16.  Whenever the constructor reaches bind (socket did not
return 0 and setsockopt succeeded), for every int server_port, either byte
order of the host and every port the kernel would pick: (1) the one bind of
the constructor asks for port server_port mod 65536; (2) if bind succeeds and
that residue is not 0, the socket is bound to server_port mod 65536; (3) if
bind succeeds and the residue is 0, the socket is bound to the port the kernel
picks; (4) if bind succeeds the constructor returns normally, whatever
server_port is; (5) if listen succeeds too, the one "listening" line of start
reports server_port mod 65536, also when the residue is 0.  (6) For
1 <= server_port <= 65535 the residue is server_port itself and not 0;
(7) outside 0..65535 it differs from server_port. -/
theorem bound_port_follows_server_port_mod_65536 (os : OS) (server_port : Int)
    (ephemeral fuel : Nat) (hsocket : os.socketRet ≠ 0) (hopt : ¬ os.setsockoptRet < 0) :
    (requestedPorts os.littleEndian (construct os server_port).trace).map Int.ofNat
        = [server_port % 65536]
    ∧ (¬ os.bindRet < 0 → server_port % 65536 ≠ 0 →
        (boundPorts os.littleEndian ephemeral (construct os server_port).trace).map Int.ofNat
          = [server_port % 65536])
    ∧ (¬ os.bindRet < 0 → server_port % 65536 = 0 →
        boundPorts os.littleEndian ephemeral (construct os server_port).trace = [ephemeral])
    ∧ (¬ os.bindRet < 0 →
        (construct os server_port).outcome = .returned (constructed os server_port))
    ∧ (¬ os.bindRet < 0 → ¬ os.listenRet < 0 →
        (reportedPorts (serve os server_port fuel).trace).map Int.ofNat
          = [server_port % 65536])
    ∧ (1 ≤ server_port → server_port ≤ 65535 →
        server_port % 65536 = server_port ∧ server_port % 65536 ≠ 0)
    ∧ ((server_port < 0 ∨ 65535 < server_port) → server_port % 65536 ≠ server_port) := by
  have hw := wirePort_constructed os server_port
  refine ⟨?_, ?_, ?_, ?_, ?_, ?_, ?_⟩
  · by_cases hb : os.bindRet < 0
    · rw [construct_bind_fail os server_port hsocket hopt hb]
      simp only [requestedPorts, List.filterMap, Event.requestedPort, List.map_cons,
        List.map_nil]
      exact congrArg (fun x => [x]) hw
    · rw [construct_ok os server_port hsocket hopt hb]
      simp only [requestedPorts, List.filterMap, Event.requestedPort, List.map_cons,
        List.map_nil]
      exact congrArg (fun x => [x]) hw
  · intro hb hne
    have hne2 : wirePort os.littleEndian (constructed os server_port).server_address.sin_port
        ≠ 0 := by
      intro h0
      rw [h0] at hw
      exact hne hw.symm
    rw [construct_ok os server_port hsocket hopt hb]
    simp only [boundPorts, List.filterMap, Event.boundPort, hb, if_false, kernelBoundPort, hne2,
      List.map_cons, List.map_nil]
    exact congrArg (fun x => [x]) hw
  · intro hb h0
    have h02 : wirePort os.littleEndian (constructed os server_port).server_address.sin_port
        = 0 := by
      rw [h0] at hw
      exact_mod_cast hw
    rw [construct_ok os server_port hsocket hopt hb]
    simp only [boundPorts, List.filterMap, Event.boundPort, hb, if_false, kernelBoundPort, h02,
      if_true]
  · intro hb
    rw [construct_ok os server_port hsocket hopt hb]
  · intro hb hl
    rw [serve_ok os server_port fuel hsocket hopt hb,
      start_listen_ok (constructed os server_port) os fuel hl]
    have h3 := (observations_acceptLoop (constructed os server_port) os fuel 0).2.2.1
    simp only [reportedPorts] at h3 ⊢
    simp only [List.filterMap_append, h3, List.append_nil]
    simp only [List.filterMap, Event.reportedPort, List.map_cons, List.map_nil, List.nil_append]
    exact congrArg (fun x => [x]) (ntohs_constructed os server_port)
  · intro h0 h1; omega
  · intro h; omega

/-- Witness for C10 (amended): on a little-endian host, constructing on port
70000 asks for and binds port 4464, and start reports 4464. -/
theorem bound_port_follows_server_port_mod_65536_witness :
    osTwoClients.socketRet ≠ 0
    ∧ ¬ osTwoClients.setsockoptRet < 0
    ∧ ¬ osTwoClients.bindRet < 0
    ∧ (70000 : Int) % 65536 ≠ 0
    ∧ requestedPorts osTwoClients.littleEndian (construct osTwoClients 70000).trace = [4464]
    ∧ boundPorts osTwoClients.littleEndian 36129 (construct osTwoClients 70000).trace = [4464]
    ∧ reportedPorts (serve osTwoClients 70000 5).trace = [4464]
    ∧ (boundPorts osTwoClients.littleEndian 36129 (construct osTwoClients 70000).trace).map
        Int.ofNat = [70000 % 65536] :=
  ⟨by decide, by decide, by decide, by decide, by decide, by decide, by decide,
    (bound_port_follows_server_port_mod_65536 osTwoClients 70000 36129 5 (by decide)
      (by decide)).2.1 (by decide) (by decide)⟩

end HTTPServer
